import Mathlib

/-!
Verification development for the hospital-inventory-management core:
a shallow embedding, in Lean, of the data model (`Asset`, `HospitalAsset`),
the repository (`AssetRepository` over the abstract `Repository` base) and
the reactive store (`useAssetStore`), together with theorems settling the
frozen claims about them.

Modelling conventions
* JavaScript numbers are modelled as exact rationals (`ℚ`).  Every numeric
  literal of the source (`0.3`, `999999`, prices, quantities) is far below
  the range where double rounding could flip one of the source's
  comparisons on the integer-valued data the validator admits, so the
  rational model agrees with the float semantics on the whole domain the
  claims quantify over.
* JavaScript strings are modelled as Lean `String`s; the source only ever
  compares, lowercases and scans ASCII data, where code-unit and
  code-point semantics agree.  Relational comparison (`<`/`>`) on strings
  is modelled by `charListLt`, numeric comparison of the code units, which
  is exactly what the JS relational operators do.
* `Date` values are modelled by their UTC calendar components
  (`Instant`); `toISOString` and ISO parsing are implemented concretely
  over that representation.
* Mutation is modelled by explicit state passing: repository and store
  operations take the current state and return the new one, together with
  the observable outcome (thrown error message, whether the repository was
  invoked, …).
* `generateId()` (a fresh random identifier, assumed non-empty) is passed
  in as an explicit `freshId` argument.
-/

namespace HIM

/-- Whitespace class used by `String.prototype.trim`; the source only needs
it through `name.trim()` being empty, i.e. the name being all whitespace. -/
def jsIsWhitespace (c : Char) : Bool :=
  c = ' ' || c = '\t' || c = '\n' || c = '\r' || c = '\x0b' || c = '\x0c'

/-- Models `!s.trim()`: the string trims to the empty string exactly when
every character is whitespace. -/
def trimsToEmpty (s : String) : Bool :=
  s.data.all jsIsWhitespace

/-- Models `String.prototype.toLowerCase` on the ASCII data the source
handles. -/
def strLower (s : String) : String :=
  ⟨s.data.map Char.toLower⟩

/-- Code-unit-wise lexicographic strict order, the order JS `<`/`>` use on
strings. -/
def charListLt : List Char → List Char → Bool
  | [], [] => false
  | [], _ :: _ => true
  | _ :: _, [] => false
  | a :: as, b :: bs =>
    if a.toNat < b.toNat then true
    else if b.toNat < a.toNat then false
    else charListLt as bs

/-- JS `a < b` on strings. -/
def strLt (a b : String) : Bool := charListLt a.data b.data

/-- Helper for `String.prototype.includes`: does `needle` occur as a
contiguous run inside `hay`? -/
def listContainsSeq (needle : List Char) : List Char → Bool
  | [] => needle.isEmpty
  | c :: rest => needle.isPrefixOf (c :: rest) || listContainsSeq needle rest

/-- Models `hay.includes(needle)`. -/
def strIncludes (hay needle : String) : Bool :=
  listContainsSeq needle.data hay.data

/-- Runtime JS value stored in a `customFields` map or read from a data
record; the source stores numbers, strings, booleans and dates there. -/
inductive JSValue where
  | num (q : ℚ)
  | str (s : String)
  | bool (b : Bool)
  | date (year month day hour minute second millis : ℕ)
  deriving DecidableEq

/-- JS truthiness on the modelled values. -/
def jsTruthy : JSValue → Bool
  | .num q => q ≠ 0
  | .str s => s ≠ ""
  | .bool b => b
  | .date _ _ _ _ _ _ _ => true

/-- `Map.prototype.set`: update the existing entry in place, else append.
This preserves the JS `Map` iteration order. -/
def mapSet {α : Type} (l : List (String × α)) (k : String) (v : α) :
    List (String × α) :=
  match l with
  | [] => [(k, v)]
  | (k', v') :: t => if k' = k then (k, v) :: t else (k', v') :: mapSet t k v

/-- `Map.prototype.get` (`none` models `undefined`). -/
def mapLookup {α : Type} : List (String × α) → String → Option α
  | [], _ => none
  | (k', v) :: t, k => if k' = k then some v else mapLookup t k

/-- A `Date` instant, represented by its UTC calendar components — the
representation `toISOString` renders.  Components are unconstrained here;
well-formedness (`Instant.wf`) bounds them to the printed field widths. -/
structure Instant where
  year : ℕ
  month : ℕ
  day : ℕ
  hour : ℕ
  minute : ℕ
  second : ℕ
  millis : ℕ
  deriving DecidableEq

/-- Component bounds under which the fixed-width ISO rendering is
injective (every real `Date` satisfies them). -/
def Instant.wf (i : Instant) : Prop :=
  i.year ≤ 9999 ∧ i.month ≤ 99 ∧ i.day ≤ 99 ∧ i.hour ≤ 99 ∧
    i.minute ≤ 99 ∧ i.second ≤ 99 ∧ i.millis ≤ 999

instance (i : Instant) : Decidable i.wf := by
  unfold Instant.wf; infer_instance

/-- The decimal digit character for `n % 10`. -/
def digitChar (n : ℕ) : Char := Char.ofNat (48 + n % 10)

/-- The numeric value of a decimal digit character. -/
def digitVal (c : Char) : ℕ := c.toNat - 48

/-- Two-digit zero-padded rendering. -/
def pad2 (n : ℕ) : List Char := [digitChar (n / 10), digitChar n]

/-- Three-digit zero-padded rendering. -/
def pad3 (n : ℕ) : List Char := [digitChar (n / 100), digitChar (n / 10), digitChar n]

/-- Four-digit zero-padded rendering. -/
def pad4 (n : ℕ) : List Char :=
  [digitChar (n / 1000), digitChar (n / 100), digitChar (n / 10), digitChar n]

/-- Models `Date.prototype.toISOString`:
`YYYY-MM-DDTHH:mm:ss.sssZ` over the UTC components. -/
def Instant.toISOString (i : Instant) : String :=
  ⟨pad4 i.year ++ '-' :: pad2 i.month ++ '-' :: pad2 i.day ++
    'T' :: pad2 i.hour ++ ':' :: pad2 i.minute ++ ':' :: pad2 i.second ++
    '.' :: pad3 i.millis ++ ['Z']⟩

/-- Models parsing an ISO-8601 timestamp back into a `Date` (the
`new Date(isoString)` step of the round-trip): reads the fixed-width
components, `none` when the shape does not match. -/
def parseISOInstant (s : String) : Option Instant :=
  match s.data with
  | [y1, y2, y3, y4, sep1, m1, m2, sep2, d1, d2, sep3, h1, h2, sep4,
     n1, n2, sep5, c1, c2, sep6, l1, l2, l3, sep7] =>
    if sep1 = '-' ∧ sep2 = '-' ∧ sep3 = 'T' ∧ sep4 = ':' ∧ sep5 = ':' ∧
        sep6 = '.' ∧ sep7 = 'Z' then
      some { year := 1000 * digitVal y1 + 100 * digitVal y2 + 10 * digitVal y3 + digitVal y4
             month := 10 * digitVal m1 + digitVal m2
             day := 10 * digitVal d1 + digitVal d2
             hour := 10 * digitVal h1 + digitVal h2
             minute := 10 * digitVal n1 + digitVal n2
             second := 10 * digitVal c1 + digitVal c2
             millis := 100 * digitVal l1 + 10 * digitVal l2 + digitVal l3 }
    else none
  | _ => none

/-- `criticalLevel` enum of `AssetData`. -/
inductive CriticalLevel where
  | critical
  | essential
  | routine
  deriving DecidableEq

/-- Runtime string of a `criticalLevel` value. -/
def CriticalLevel.toStr : CriticalLevel → String
  | .critical => "critical"
  | .essential => "essential"
  | .routine => "routine"

/-- The `AssetData` interface of `src/models/Asset.ts`. -/
structure AssetData where
  id : String
  name : String
  manufacturer : String
  category : String
  quantity : ℚ
  serialNumber : String
  criticalLevel : CriticalLevel
  lastMaintenance : Option Instant
  expiryDate : Option Instant
  reorderPoint : ℚ
  deriving DecidableEq

/-- The `HospitalAssetData` interface of `src/models/HospitalAsset.ts`.
`condition` is kept as a runtime string (the enum of documented values is
not enforced at runtime), matching the truthiness tests the constructor
performs on it. -/
structure HospitalAssetData extends AssetData where
  location : Option String
  condition : Option String
  purchasePrice : Option ℚ
  warrantyExpiry : Option Instant
  lastCalibration : Option Instant
  deriving DecidableEq

/-- Field type enum of `FieldConfig` in `src/models/HospitalConfig.ts`. -/
inductive FieldType where
  | text
  | number
  | date
  | currency
  | percentage
  | boolean
  deriving DecidableEq

/-- A `FieldConfig` entry of a hospital's tenant schema. -/
structure FieldConfig where
  key : String
  label : String
  type : FieldType
  required : Bool := false
  visible : Bool := false
  sortable : Bool := false
  editable : Bool := false
  deriving DecidableEq

/-- The `HospitalConfig` tenant schema. -/
structure HospitalConfig where
  id : String
  name : String
  fields : List FieldConfig
  deriving DecidableEq

/-- `Partial<HospitalAssetData>` as handed to the `HospitalAsset`
constructor (a superset of the `Partial<AssetData>` the base class
consumes): every field optional, `customFields` an optional object. -/
structure HospitalAssetInput where
  id : Option String := none
  name : Option String := none
  manufacturer : Option String := none
  category : Option String := none
  quantity : Option ℚ := none
  serialNumber : Option String := none
  criticalLevel : Option CriticalLevel := none
  lastMaintenance : Option Instant := none
  expiryDate : Option Instant := none
  reorderPoint : Option ℚ := none
  customFields : Option (List (String × JSValue)) := none
  location : Option String := none
  condition : Option String := none
  purchasePrice : Option ℚ := none
  warrantyExpiry : Option Instant := none
  lastCalibration : Option Instant := none

/-- JS `input || fallback` for strings: the empty string is falsy. -/
def jsStrOr (o : Option String) (fallback : String) : String :=
  match o with
  | some s => if s = "" then fallback else s
  | none => fallback

/-- The effect of `if (x) this.data.f = x` on an optional string field:
an absent or empty-string input leaves the field unset. -/
def jsStrOpt (o : Option String) : Option String :=
  match o with
  | some s => if s = "" then none else some s
  | none => none

/-- The effect of `if (x) …` on an optional numeric field: absent or zero
input leaves the field unset. -/
def jsNumOpt (o : Option ℚ) : Option ℚ :=
  match o with
  | some q => if q = 0 then none else some q
  | none => none

namespace Asset

/-- `Asset.initialize`: caller data merged over defaults.  `id` falls back
to `generateId()` — passed in as `freshId` — when absent or empty (`||`);
`quantity`/`reorderPoint` use explicit `!== undefined` checks, so a given
`0` is kept. -/
def initData (freshId : String) (inp : HospitalAssetInput) : AssetData where
  id := jsStrOr inp.id freshId
  name := inp.name.getD ""
  manufacturer := inp.manufacturer.getD ""
  category := inp.category.getD ""
  quantity := inp.quantity.getD 0
  serialNumber := inp.serialNumber.getD ""
  criticalLevel := inp.criticalLevel.getD .routine
  lastMaintenance := inp.lastMaintenance
  expiryDate := inp.expiryDate
  reorderPoint := inp.reorderPoint.getD 10

/-- Character class `[A-Z]` of the serial-number pattern. -/
def isUpperAZ (c : Char) : Bool := 'A' ≤ c && c ≤ 'Z'

/-- Character class `\d` of the serial-number pattern. -/
def isDigit09 (c : Char) : Bool := '0' ≤ c && c ≤ '9'

/-- Models `serialNumber.match(/^[A-Z]{2}-\d{6}$/) !== null`. -/
def serialNumberMatches (s : String) : Bool :=
  match s.data with
  | [a, b, dash, d1, d2, d3, d4, d5, d6] =>
    isUpperAZ a && isUpperAZ b && dash = '-' &&
      isDigit09 d1 && isDigit09 d2 && isDigit09 d3 &&
      isDigit09 d4 && isDigit09 d5 && isDigit09 d6
  | _ => false

/-- `Asset.validate`'s error-recording pass: the list of
(field, message) pairs `addError` records, in recording order, starting
from the cleared map.  The `quantity === undefined || === null` guard of
the source cannot fire on initialized data (initialization always stores a
number), so it has no corresponding branch. -/
def validateErrors (d : AssetData) : List (String × String) :=
  (if trimsToEmpty d.name then [("name", "Name is required")]
   else if d.name.length > 100 then [("name", "Name must be less than 100 characters")]
   else []) ++
  (if d.quantity < 0 then [("quantity", "Quantity cannot be negative")]
   else if d.quantity > 999999 then [("quantity", "Quantity exceeds maximum allowed value")]
   else if ¬ d.quantity.isInt then [("quantity", "Quantity must be a whole number")]
   else []) ++
  (if d.serialNumber = "" then [("serialNumber", "Serial number is required")]
   else if ¬ serialNumberMatches d.serialNumber then
     [("serialNumber", "Invalid serial number format (should be XX-000000)")]
   else []) ++
  (if d.reorderPoint < 0 then [("reorderPoint", "Reorder point cannot be negative")]
   else [])

/-- `Asset.validate`'s return value: `!this.hasErrors()` after the pass. -/
def validate (d : AssetData) : Bool := (validateErrors d).isEmpty

/-- `Asset.isLowStock`. -/
def isLowStock (d : AssetData) : Bool :=
  decide (d.quantity < d.reorderPoint) && decide (d.quantity > d.reorderPoint * (3 / 10))

/-- `Asset.isCritical`. -/
def isCritical (d : AssetData) : Bool :=
  if d.criticalLevel = CriticalLevel.critical then true
  else decide (d.quantity ≤ d.reorderPoint * (3 / 10))

end Asset

/-- A constructed `HospitalAsset`: its data record, its `customFields`
map (insertion-ordered, as a JS `Map`), the tenant config it was built
with, and the dirty flag of the `Model` base class. -/
structure HospitalAsset where
  data : HospitalAssetData
  customFields : List (String × JSValue)
  config : HospitalConfig
  isDirty : Bool
  deriving DecidableEq

namespace HospitalAsset

/-- The `HospitalAsset` constructor: base initialization, the
custom-fields map from the input object, then the conditional overlays —
`location`/`condition` only when truthy (non-empty), `purchasePrice` only
when truthy (non-zero, also mirrored into the custom-fields map), dates
whenever present (a `Date` object is always truthy).  A freshly
constructed model is not dirty. -/
def construct (inp : HospitalAssetInput) (config : HospitalConfig)
    (freshId : String) : HospitalAsset :=
  let cf := inp.customFields.getD []
  { data := { toAssetData := Asset.initData freshId inp
              location := jsStrOpt inp.location
              condition := jsStrOpt inp.condition
              purchasePrice := jsNumOpt inp.purchasePrice
              warrantyExpiry := inp.warrantyExpiry
              lastCalibration := inp.lastCalibration }
    customFields :=
      match inp.purchasePrice with
      | some p => if p = 0 then cf else mapSet cf "purchasePrice" (.num p)
      | none => cf
    config := config
    isDirty := false }

/-- `getCustomField`. -/
def getCustomField (h : HospitalAsset) (key : String) : Option JSValue :=
  mapLookup h.customFields key

/-- `markAsClean` of the `Model` base class. -/
def markAsClean (h : HospitalAsset) : HospitalAsset := { h with isDirty := false }

/-- Inherited `isCritical`. -/
def isCritical (h : HospitalAsset) : Bool := Asset.isCritical h.data.toAssetData

/-- Inherited `isLowStock`. -/
def isLowStock (h : HospitalAsset) : Bool := Asset.isLowStock h.data.toAssetData

/-- The base `AssetData` keys, all of which the initializer assigns (so
the JS `in` test finds them even when the stored value is `undefined`). -/
def baseKeys : List String :=
  ["id", "name", "manufacturer", "category", "quantity", "serialNumber",
   "criticalLevel", "lastMaintenance", "expiryDate", "reorderPoint"]

/-- Models `key in this.data` on a constructed record: base keys are
always present; hospital-specific keys only once assigned. -/
def dataHasKey (d : HospitalAssetData) (k : String) : Bool :=
  baseKeys.contains k ||
    (k = "location" && d.location.isSome) ||
    (k = "condition" && d.condition.isSome) ||
    (k = "purchasePrice" && d.purchasePrice.isSome) ||
    (k = "warrantyExpiry" && d.warrantyExpiry.isSome) ||
    (k = "lastCalibration" && d.lastCalibration.isSome)

/-- Models `this.data[key]` as a runtime value (`none` = `undefined`,
which base date keys can hold even while present). -/
def dataFieldValue (d : HospitalAssetData) (k : String) : Option JSValue :=
  if k = "id" then some (.str d.id)
  else if k = "name" then some (.str d.name)
  else if k = "manufacturer" then some (.str d.manufacturer)
  else if k = "category" then some (.str d.category)
  else if k = "quantity" then some (.num d.quantity)
  else if k = "serialNumber" then some (.str d.serialNumber)
  else if k = "criticalLevel" then some (.str d.criticalLevel.toStr)
  else if k = "lastMaintenance" then
    d.lastMaintenance.map fun i => .date i.year i.month i.day i.hour i.minute i.second i.millis
  else if k = "expiryDate" then
    d.expiryDate.map fun i => .date i.year i.month i.day i.hour i.minute i.second i.millis
  else if k = "reorderPoint" then some (.num d.reorderPoint)
  else if k = "location" then d.location.map .str
  else if k = "condition" then d.condition.map .str
  else if k = "purchasePrice" then d.purchasePrice.map .num
  else if k = "warrantyExpiry" then
    d.warrantyExpiry.map fun i => .date i.year i.month i.day i.hour i.minute i.second i.millis
  else if k = "lastCalibration" then
    d.lastCalibration.map fun i => .date i.year i.month i.day i.hour i.minute i.second i.millis
  else none

/-- The required-value test of `HospitalAsset.validate`:
`value === undefined || value === null || value === ''`. -/
def requiredMissing : Option JSValue → Bool
  | none => true
  | some (.str s) => s = ""
  | some _ => false

/-- The config-driven pass of `HospitalAsset.validate`: for every
`required` field, in schema order, an error when the value (from the data
record when the key is present there, else from the custom-fields map) is
missing or empty. -/
def requiredFieldErrors (h : HospitalAsset) : List (String × String) :=
  h.config.fields.flatMap fun fc =>
    if fc.required then
      let value :=
        if dataHasKey h.data fc.key then dataFieldValue h.data fc.key
        else mapLookup h.customFields fc.key
      if requiredMissing value then [(fc.key, fc.label ++ " is required")] else []
    else []

/-- All errors `HospitalAsset.validate` records: the base pass followed by
the config-driven pass (appending into the same map). -/
def validateErrors (h : HospitalAsset) : List (String × String) :=
  Asset.validateErrors h.data.toAssetData ++ requiredFieldErrors h

/-- `HospitalAsset.validate`'s return value:
`baseValid && !this.hasErrors()`. -/
def validate (h : HospitalAsset) : Bool :=
  (Asset.validateErrors h.data.toAssetData).isEmpty && (validateErrors h).isEmpty

/-- The serialized record `HospitalAsset.serialize` produces: the data
fields with every date rendered as an ISO-8601 string, plus the
custom-fields object and the hospital-specific typed fields. -/
structure Serialized where
  id : String
  name : String
  manufacturer : String
  category : String
  quantity : ℚ
  serialNumber : String
  criticalLevel : CriticalLevel
  lastMaintenance : Option String
  expiryDate : Option String
  reorderPoint : ℚ
  customFields : List (String × JSValue)
  location : Option String
  condition : Option String
  purchasePrice : Option ℚ
  warrantyExpiry : Option String
  lastCalibration : Option String
  deriving DecidableEq

/-- `HospitalAsset.serialize` (including the base `Asset.serialize`
spread it extends). -/
def serialize (h : HospitalAsset) : Serialized where
  id := h.data.id
  name := h.data.name
  manufacturer := h.data.manufacturer
  category := h.data.category
  quantity := h.data.quantity
  serialNumber := h.data.serialNumber
  criticalLevel := h.data.criticalLevel
  lastMaintenance := h.data.lastMaintenance.map Instant.toISOString
  expiryDate := h.data.expiryDate.map Instant.toISOString
  reorderPoint := h.data.reorderPoint
  customFields := h.customFields
  location := h.data.location
  condition := h.data.condition
  purchasePrice := h.data.purchasePrice
  warrantyExpiry := h.data.warrantyExpiry.map Instant.toISOString
  lastCalibration := h.data.lastCalibration.map Instant.toISOString

end HospitalAsset

/-- The serialized record handed back to the constructor, as the
round-trip property reads it: field values pass through unchanged and the
ISO date strings are parsed back into instants. -/
def HospitalAsset.Serialized.toInput (s : HospitalAsset.Serialized) :
    HospitalAssetInput where
  id := some s.id
  name := some s.name
  manufacturer := some s.manufacturer
  category := some s.category
  quantity := some s.quantity
  serialNumber := some s.serialNumber
  criticalLevel := some s.criticalLevel
  lastMaintenance := s.lastMaintenance.bind parseISOInstant
  expiryDate := s.expiryDate.bind parseISOInstant
  reorderPoint := some s.reorderPoint
  customFields := some s.customFields
  location := s.location
  condition := s.condition
  purchasePrice := s.purchasePrice
  warrantyExpiry := s.warrantyExpiry.bind parseISOInstant
  lastCalibration := s.lastCalibration.bind parseISOInstant

/-- The in-memory collection of `Repository` / `AssetRepository`: the
`Map<string, T>` keyed by id, in insertion order. -/
abbrev RepoStorage : Type := List (String × HospitalAsset)

namespace AssetRepository

/-- First field's first message — `Object.values(errors)[0]?.[0]` — with
the `'Validation failed'` fallback.  The flat error list is in recording
order, so its head is the first message of the first field recorded. -/
def firstErrorMessage (h : HospitalAsset) : String :=
  match HospitalAsset.validateErrors h with
  | [] => "Validation failed"
  | (_, msg) :: _ => msg

/-- Outcome of `AssetRepository.save`: the collection afterwards, the
thrown error message if any, and the entity as the caller's reference
observes it afterwards. -/
structure SaveOutcome where
  storage : RepoStorage
  thrown : Option String
  entity : HospitalAsset

/-- `AssetRepository.save`: `beforeSave` validates and throws before
anything is stored; on success the entity is upserted under its id,
`afterSave` marks it clean (the stored reference is the same object), and
the collection snapshot is written to `localStorage` (persistence is
outside this model). -/
def save (m : HospitalAsset) (storage : RepoStorage) : SaveOutcome :=
  if HospitalAsset.validate m then
    { storage := mapSet storage m.data.id (HospitalAsset.markAsClean m)
      thrown := none
      entity := HospitalAsset.markAsClean m }
  else
    { storage := storage
      thrown := some ("Model validation failed: " ++ firstErrorMessage m)
      entity := m }

end AssetRepository

/-- `sortBy` values of the store. -/
inductive SortKey where
  | name
  | quantity
  | category
  deriving DecidableEq

/-- `sortDirection` values of the store. -/
inductive SortDir where
  | asc
  | desc
  deriving DecidableEq

/-- `activeFilter` values of the store. -/
inductive ActiveFilter where
  | all
  | critical
  | lowStock
  deriving DecidableEq

/-- The reactive state of `useAssetStore`. -/
structure StoreState where
  assets : List HospitalAsset
  loading : Bool
  error : Option String
  searchQuery : String
  selectedCategory : Option String
  sortBy : SortKey
  sortDirection : SortDir
  activeFilter : ActiveFilter

namespace StoreState

/-- The search predicate of `filteredAssets` (query already lowercased). -/
def matchesSearch (q : String) (a : HospitalAsset) : Bool :=
  strIncludes (strLower a.data.name) q ||
    strIncludes (strLower a.data.serialNumber) q ||
    strIncludes (strLower a.data.manufacturer) q

/-- JS `aVal < bVal` on the chosen sort field. -/
def sortKeyLt (k : SortKey) (a b : HospitalAsset) : Bool :=
  match k with
  | .name => strLt a.data.name b.data.name
  | .quantity => decide (a.data.quantity < b.data.quantity)
  | .category => strLt a.data.category b.data.category

/-- The "keep `a` before `b`" relation of the store's comparator under a
stable `Array.prototype.sort`: `a` stays before `b` exactly when the
comparator returns ≤ 0 on `(a, b)` — ascending: not `aVal > bVal`;
descending (comparison negated): not `aVal < bVal`. -/
def sortLE (k : SortKey) (dir : SortDir) (a b : HospitalAsset) : Bool :=
  match dir with
  | .asc => ! sortKeyLt k b a
  | .desc => ! sortKeyLt k a b

/-- The `filteredAssets` computed view: a copy of the working set, the
active special filter, the lowercased substring search, the category
equality filter (both only when the setting is truthy), then the stable
in-place sort of the copy.  `Array.prototype.sort` with a consistent
comparator is stable (ES2019), modelled by `List.mergeSort`. -/
def filteredAssets (st : StoreState) : List HospitalAsset :=
  let result := st.assets
  let result :=
    match st.activeFilter with
    | .critical => result.filter HospitalAsset.isCritical
    | .lowStock => result.filter HospitalAsset.isLowStock
    | .all => result
  let result :=
    if st.searchQuery ≠ "" then
      let query := strLower st.searchQuery
      result.filter (matchesSearch query)
    else result
  let result :=
    match st.selectedCategory with
    | some c =>
      if c ≠ "" then
        result.filter fun (a : HospitalAsset) => decide (a.data.category = c)
      else result
    | none => result
  result.mergeSort (sortLE st.sortBy st.sortDirection)

/-- Evaluating the `filteredAssets` computed together with the store
state it leaves behind: the pipeline starts from the spread copy
`[...assets.value]`, so the only in-place mutation (the final `sort`)
happens on that copy; no statement of the getter assigns to any state
ref, and the state passes through unchanged. -/
def filteredAssetsRun (st : StoreState) : List HospitalAsset × StoreState :=
  (st.filteredAssets, st)

/-- `criticalAssets` computed. -/
def criticalAssets (st : StoreState) : List HospitalAsset :=
  st.assets.filter HospitalAsset.isCritical

/-- `lowStockAssets` computed. -/
def lowStockAssets (st : StoreState) : List HospitalAsset :=
  st.assets.filter HospitalAsset.isLowStock

/-- `asset.getCustomField('purchasePrice') || 0` as the number the sum
accumulates.  The store only ever writes numbers under this key; a
non-numeric value (which JS would coerce) is outside the modelled domain
and the theorems about `totalValue` restrict to numeric-or-absent
entries. -/
def purchasePriceOr0 (a : HospitalAsset) : ℚ :=
  match mapLookup a.customFields "purchasePrice" with
  | some (.num q) => q
  | _ => 0

/-- `totalValue` computed: the `reduce` over the working set. -/
def totalValue (st : StoreState) : ℚ :=
  st.assets.foldl (fun sum a => sum + a.data.quantity * purchasePriceOr0 a) 0

/-- `categories` computed: first-occurrence deduplication (a JS `Set`
iterates in insertion order) followed by the default lexicographic sort. -/
def categories (st : StoreState) : List String :=
  let cats : List String := st.assets.map fun a => a.data.category
  cats.eraseDups.mergeSort fun a b => ! strLt b a

/-- The `statistics` aggregate object. -/
structure Statistics where
  totalAssets : ℕ
  totalValue : ℚ
  criticalCount : ℕ
  lowStockCount : ℕ
  categoriesCount : ℕ

/-- `statistics` computed. -/
def statistics (st : StoreState) : Statistics where
  totalAssets := st.assets.length
  totalValue := st.totalValue
  criticalCount := st.criticalAssets.length
  lowStockCount := st.lowStockAssets.length
  categoriesCount := st.categories.length

end StoreState

/-- Grouping of the flat error list back into the field → messages map
`getErrors()` returns: fields in first-recording order, each with its
messages in order. -/
def groupErrors : List (String × String) → List (String × List String)
  | [] => []
  | (f, m) :: rest =>
    (f, m :: (rest.filter fun e => e.1 = f).map Prod.snd) ::
      groupErrors (rest.filter fun e => e.1 ≠ f)
termination_by l => l.length
decreasing_by
  exact Nat.lt_succ_of_le (List.length_filter_le _ _)

/-- The composed message `createAsset` records on validation failure:
`Validation failed: ${entries.map(([field, msg]) => field + ": " + msg).join(', ')}`
where each `msg` is the field's message array (stringified by joining
with commas). -/
def composeValidationError (h : HospitalAsset) : String :=
  "Validation failed: " ++
    String.intercalate ", "
      ((groupErrors (HospitalAsset.validateErrors h)).map fun e =>
        e.1 ++ ": " ++ String.intercalate "," e.2)

namespace StoreState

/-- Outcome of a `createAsset` call: the store state and repository
collection afterwards, and whether `repository.save` was invoked. -/
structure CreateOutcome where
  state : StoreState
  storage : RepoStorage
  saveCalled : Bool

/-- `createAsset`: sets loading and clears the error; records the
composed validation message and returns — without touching the working
set or the repository — when the entity's own `validate()` fails;
otherwise saves through the repository (whose own throw is caught into
`error`) and appends the saved entity to the working set.  The `finally`
clears `loading` on every path. -/
def createAsset (a : HospitalAsset) (st : StoreState) (storage : RepoStorage) :
    CreateOutcome :=
  let st1 : StoreState := { st with loading := true, error := none }
  if HospitalAsset.validate a then
    let out := AssetRepository.save a storage
    match out.thrown with
    | some msg =>
      { state := { st1 with error := some msg, loading := false }
        storage := out.storage
        saveCalled := true }
    | none =>
      { state := { st1 with assets := st1.assets ++ [out.entity], loading := false }
        storage := out.storage
        saveCalled := true }
  else
    { state := { st1 with error := some (composeValidationError a), loading := false }
      storage := storage
      saveCalled := false }

end StoreState

/-! Spec-side pipeline, written from the specification's words for the
refinement theorem about `filteredAssets`: the activeFilter predicate
first, then the case-insensitive substring search over
name/serialNumber/manufacturer when the query is non-empty, then the
category equality filter when a category is set (JS-truthy, i.e.
non-null and non-empty), then a stable sort on the `sortBy` field in
`sortDirection` order. -/

/-- Spec-side: the `activeFilter` predicate stage. -/
def specActiveFilter (f : ActiveFilter) (l : List HospitalAsset) :
    List HospitalAsset :=
  match f with
  | .all => l
  | .critical => l.filter HospitalAsset.isCritical
  | .lowStock => l.filter HospitalAsset.isLowStock

/-- Spec-side: the case-insensitive substring search stage. -/
def specSearchFilter (q : String) (l : List HospitalAsset) :
    List HospitalAsset :=
  if q = "" then l
  else
    l.filter fun a =>
      strIncludes (strLower a.data.name) (strLower q) ||
        strIncludes (strLower a.data.serialNumber) (strLower q) ||
        strIncludes (strLower a.data.manufacturer) (strLower q)

/-- Spec-side: the category equality stage. -/
def specCategoryFilter (c : Option String) (l : List HospitalAsset) :
    List HospitalAsset :=
  match c with
  | some cat =>
    if cat = "" then l
    else l.filter fun a => decide (a.data.category = cat)
  | none => l

/-- Spec-side: the list to be sorted, after the three filter stages in
the specified order. -/
def specPreSort (st : StoreState) : List HospitalAsset :=
  specCategoryFilter st.selectedCategory
    (specSearchFilter st.searchQuery
      (specActiveFilter st.activeFilter st.assets))

/-- Spec-side: ascending "at most" on the chosen sort field (on strings,
"not greater", the code-unit order). -/
def specSortKeyLE (k : SortKey) (a b : HospitalAsset) : Bool :=
  match k with
  | .name => ! strLt b.data.name a.data.name
  | .quantity => decide (a.data.quantity ≤ b.data.quantity)
  | .category => ! strLt b.data.category a.data.category

/-- Spec-side: the sort order — the field order for `asc`, its reverse
for `desc`. -/
def specSortLE (k : SortKey) (dir : SortDir) (a b : HospitalAsset) : Bool :=
  match dir with
  | .asc => specSortKeyLE k a b
  | .desc => specSortKeyLE k b a

/-- Spec-side: the whole `filteredAssets` pipeline, stable-sorted with
`List.mergeSort`. -/
def specFilteredAssets (st : StoreState) : List HospitalAsset :=
  (specPreSort st).mergeSort (specSortLE st.sortBy st.sortDirection)

/-- Spec-side: the asset's numeric `purchasePrice` custom field, absent
when the map holds none. -/
def specPurchasePrice (a : HospitalAsset) : Option ℚ :=
  match mapLookup a.customFields "purchasePrice" with
  | some (.num q) => some q
  | _ => none

/-- The asset's `purchasePrice` custom entry is numeric or absent — the
domain on which the rational model of the sum is faithful (JS would
coerce other value types). -/
def ppNumeric (a : HospitalAsset) : Bool :=
  match mapLookup a.customFields "purchasePrice" with
  | some (.num _) => true
  | none => true
  | some _ => false

/-! Concrete fixtures used by counterexamples and witnesses. -/

/-- A tenant config with no required fields (so `HospitalAsset.validate`
coincides with the base validation on it). -/
def plainConfig : HospitalConfig where
  id := "hospital-1"
  name := "Test Hospital"
  fields := []

/-- A valid base data record (the test suite's ventilator fixture with a
routine critical level). -/
def ventilatorData : AssetData where
  id := "1"
  name := "Ventilator"
  manufacturer := "MedTech"
  category := "Life Support"
  quantity := 5
  serialNumber := "LS-123456"
  criticalLevel := .routine
  lastMaintenance := none
  expiryDate := none
  reorderPoint := 10

/-- The known non-exclusivity input: tagged critical while in the
low-stock band (quantity 8 of reorder point 10). -/
def taggedLowStockData : AssetData :=
  { ventilatorData with
    quantity := 8
    criticalLevel := .critical }

/-- A routine-tagged asset in the low-stock band. -/
def routineLowStockData : AssetData :=
  { ventilatorData with quantity := 8 }

/-- Wraps a base record into a `HospitalAsset` with no custom fields
under `plainConfig` (dirty, as after a field mutation). -/
def plainModel (d : AssetData) : HospitalAsset where
  data := { toAssetData := d, location := none, condition := none,
            purchasePrice := none, warrantyExpiry := none, lastCalibration := none }
  customFields := []
  config := plainConfig
  isDirty := true

/-- A valid model. -/
def validModel : HospitalAsset := plainModel ventilatorData

/-- A model whose serial number is not `XX-000000`-shaped. -/
def invalidSerialModel : HospitalAsset :=
  plainModel { ventilatorData with serialNumber := "INVALID" }

/-- An empty store state over a given working set. -/
def storeWith (l : List HospitalAsset) : StoreState where
  assets := l
  loading := false
  error := none
  searchQuery := ""
  selectedCategory := none
  sortBy := .name
  sortDirection := .asc
  activeFilter := .all

/-- The statistics fixture of the integration test: quantities 2 and 5,
reorder points 3 and 1, purchase prices 1000 and 500. -/
def statsAsset1 : HospitalAsset :=
  { plainModel
      { ventilatorData with
        id := "1"
        name := "Asset 1"
        category := "Life Support"
        quantity := 2
        reorderPoint := 3
        criticalLevel := .critical
        serialNumber := "A1-123456" } with
    customFields := [("purchasePrice", .num 1000)] }

/-- Second statistics fixture. -/
def statsAsset2 : HospitalAsset :=
  { plainModel
      { ventilatorData with
        id := "2"
        name := "Asset 2"
        manufacturer := "Global"
        category := "Diagnostic"
        quantity := 5
        reorderPoint := 1
        criticalLevel := .essential
        serialNumber := "A2-123456" } with
    customFields := [("purchasePrice", .num 500)] }

/-- The statistics fixture store. -/
def statsStore : StoreState := storeWith [statsAsset1, statsAsset2]

/-- Two assets with equal quantity (a sort tie) for the stability
witness. -/
def tieAsset1 : HospitalAsset :=
  plainModel
    { ventilatorData with
      id := "1"
      name := "Zebra Equipment"
      serialNumber := "ZE-123456" }

/-- Second tie fixture. -/
def tieAsset2 : HospitalAsset :=
  plainModel
    { ventilatorData with
      id := "2"
      name := "Alpha Equipment"
      serialNumber := "AE-123456" }

/-- A store sorting by quantity where the two assets tie. -/
def tieStore : StoreState :=
  { storeWith [tieAsset1, tieAsset2] with sortBy := .quantity }

/-- A construction input exercising every optional field for the
round-trip witness. -/
def roundtripInput : HospitalAssetInput where
  id := some "test-1"
  name := some "Ventilator"
  manufacturer := some "MedTech"
  category := some "Life Support"
  quantity := some 5
  serialNumber := some "LS-123456"
  criticalLevel := some .critical
  lastMaintenance := some ⟨2024, 1, 1, 0, 0, 0, 0⟩
  expiryDate := none
  reorderPoint := some 10
  customFields := some [("department", .str "ICU")]
  location := some "Ward 3"
  condition := some "Good"
  purchasePrice := some 1000
  warrantyExpiry := some ⟨2026, 5, 20, 12, 30, 45, 123⟩
  lastCalibration := none

/-- A construction input with a zero purchase price and empty-string
location/condition, for the constructor-truthiness witness. -/
def falsyInput : HospitalAssetInput :=
  { roundtripInput with
    purchasePrice := some 0
    location := some ""
    condition := some ""
    customFields := some [("department", .str "ICU")] }

/-! General helper lemmas. -/

theorem mapLookup_mapSet_self {α : Type} (l : List (String × α)) (k : String) (v : α) :
    mapLookup (mapSet l k v) k = some v := by
  induction l with
  | nil => simp [mapSet, mapLookup]
  | cons hd t ih =>
    obtain ⟨k', v'⟩ := hd
    by_cases hk : k' = k
    · subst hk
      simp [mapSet, mapLookup]
    · simp [mapSet, mapLookup, hk, ih]

theorem mapLookup_mapSet_ne {α : Type} (l : List (String × α)) (k k' : String)
    (v : α) (h : k' ≠ k) :
    mapLookup (mapSet l k v) k' = mapLookup l k' := by
  induction l with
  | nil => simp [mapSet, mapLookup, Ne.symm h]
  | cons hd t ih =>
    obtain ⟨k'', v''⟩ := hd
    by_cases hk : k'' = k
    · subst hk
      simp [mapSet, mapLookup, Ne.symm h]
    · simp [mapSet, mapLookup, hk, ih]

theorem mapSet_idem {α : Type} (l : List (String × α)) (k : String) (v : α) :
    mapSet (mapSet l k v) k v = mapSet l k v := by
  induction l with
  | nil => simp [mapSet]
  | cons hd t ih =>
    obtain ⟨k', v'⟩ := hd
    by_cases hk : k' = k
    · subst hk
      simp [mapSet]
    · simp [mapSet, hk, ih]

theorem digitVal_digitChar (n : ℕ) : digitVal (digitChar n) = n % 10 := by
  unfold digitChar
  have h : n % 10 < 10 := Nat.mod_lt _ (by norm_num)
  set r := n % 10 with hr
  interval_cases r <;> decide

theorem digits2_recompose (n : ℕ) (h : n ≤ 99) :
    10 * (n / 10 % 10) + n % 10 = n := by
  have h1 : n / 10 / 10 = 0 := Nat.div_eq_of_lt (by omega)
  omega

theorem digits3_recompose (n : ℕ) (h : n ≤ 999) :
    100 * (n / 100 % 10) + 10 * (n / 10 % 10) + n % 10 = n := by
  have h1 : n / 10 / 10 = n / 100 := by rw [Nat.div_div_eq_div_mul]
  have h2 : n / 100 / 10 = 0 := Nat.div_eq_of_lt (by omega)
  omega

theorem digits4_recompose (n : ℕ) (h : n ≤ 9999) :
    1000 * (n / 1000 % 10) + 100 * (n / 100 % 10) + 10 * (n / 10 % 10) + n % 10 = n := by
  have h1 : n / 10 / 10 = n / 100 := by rw [Nat.div_div_eq_div_mul]
  have h2 : n / 100 / 10 = n / 1000 := by rw [Nat.div_div_eq_div_mul]
  have h3 : n / 1000 / 10 = 0 := Nat.div_eq_of_lt (by omega)
  omega

theorem parseISO_toISO (i : Instant) (h : i.wf) :
    parseISOInstant i.toISOString = some i := by
  obtain ⟨y, mo, d, hr, mi, s, ms⟩ := i
  simp only [Instant.wf] at h
  obtain ⟨hy, hmo, hd, hhr, hmi, hs, hms⟩ := h
  simp only [Instant.toISOString, pad4, pad3, pad2, List.cons_append,
    List.nil_append]
  simp only [parseISOInstant, digitVal_digitChar]
  rw [if_pos (by simp)]
  simp only [Option.some.injEq, Instant.mk.injEq]
  refine ⟨?_, ?_, ?_, ?_, ?_, ?_, ?_⟩
  · exact digits4_recompose y hy
  · exact digits2_recompose mo hmo
  · exact digits2_recompose d hd
  · exact digits2_recompose hr hhr
  · exact digits2_recompose mi hmi
  · exact digits2_recompose s hs
  · exact digits3_recompose ms hms

theorem jsStrOpt_idem (o : Option String) : jsStrOpt (jsStrOpt o) = jsStrOpt o := by
  cases o with
  | none => rfl
  | some s => by_cases h : s = "" <;> simp [jsStrOpt, h]

theorem jsNumOpt_idem (o : Option ℚ) : jsNumOpt (jsNumOpt o) = jsNumOpt o := by
  cases o with
  | none => rfl
  | some q => by_cases h : q = 0 <;> simp [jsNumOpt, h]

theorem jsStrOr_ne_empty (o : Option String) (d : String) (h : d ≠ "") :
    jsStrOr o d ≠ "" := by
  cases o with
  | none => simpa [jsStrOr] using h
  | some s => by_cases hs : s = "" <;> simp [jsStrOr, hs, h]

theorem jsStrOr_some_of_ne (s d : String) (h : s ≠ "") : jsStrOr (some s) d = s := by
  simp [jsStrOr, h]

/-! ## C1 — mutual exclusivity of `isLowStock` and `isCritical`

The claim as frozen is false on the code: an asset tagged
`criticalLevel == 'critical'` whose quantity sits in the low-stock band
satisfies both predicates, because `isCritical`'s tag clause ignores the
30% boundary.  The exclusivity does hold whenever the tag clause does not
fire, i.e. for every asset whose `criticalLevel` is not `'critical'`. -/

/-- C1 counterexample: quantity 8, reorder point 10, tagged critical —
`isLowStock()` and `isCritical()` are both true. -/
theorem lowStock_and_critical_both_true :
    Asset.isLowStock taggedLowStockData = true ∧
      Asset.isCritical taggedLowStockData = true := by
  constructor
  · simp only [Asset.isLowStock, taggedLowStockData, ventilatorData,
      Bool.and_eq_true, decide_eq_true_eq]
    norm_num
  · rfl

/-- C1 (amended): for every asset whose `criticalLevel` is not
`critical`, `isLowStock()` and `isCritical()` are never both true — the
quantity clause of `isCritical` requires at-or-below the 30% boundary
while `isLowStock` requires strictly above it. -/
theorem isLowStock_isCritical_exclusive (d : AssetData)
    (h : d.criticalLevel ≠ CriticalLevel.critical) :
    ¬ (Asset.isLowStock d = true ∧ Asset.isCritical d = true) := by
  rintro ⟨hl, hc⟩
  unfold Asset.isLowStock at hl
  unfold Asset.isCritical at hc
  rw [if_neg h] at hc
  simp only [Bool.and_eq_true, decide_eq_true_eq] at hl hc
  exact absurd hc (not_le.mpr hl.2)

/-- C1 witness: the exclusivity theorem applied to the routine-tagged
asset with quantity 8 of reorder point 10. -/
theorem isLowStock_isCritical_exclusive_witness :
    ¬ (Asset.isLowStock routineLowStockData = true ∧
        Asset.isCritical routineLowStockData = true) :=
  isLowStock_isCritical_exclusive routineLowStockData (by decide)

/-! ## C2 — characterization of `isCritical` and `isLowStock` -/

/-- C2: `isCritical()` is true iff the level is tagged critical or the
quantity is at most 30% of the reorder point, and `isLowStock()` is true
iff the quantity is strictly between 30% of the reorder point and the
reorder point. -/
theorem isCritical_isLowStock_characterization (d : AssetData) :
    (Asset.isCritical d = true ↔
      (d.criticalLevel = CriticalLevel.critical ∨
        d.quantity ≤ d.reorderPoint * (3 / 10))) ∧
    (Asset.isLowStock d = true ↔
      (d.quantity < d.reorderPoint ∧ d.quantity > d.reorderPoint * (3 / 10))) := by
  constructor
  · unfold Asset.isCritical
    by_cases h : d.criticalLevel = CriticalLevel.critical <;> simp [h]
  · unfold Asset.isLowStock
    simp [Bool.and_eq_true, decide_eq_true_eq]

/-! ## C3 — `validate()` on in-range fields -/

/-- C3: every asset whose fields lie within the documented ranges
validates: `validate()` returns true and the error map stays empty (so
`hasErrors()` is false afterwards); moreover, on every asset,
`validate()` returns true exactly when the pass recorded no error. -/
theorem validate_within_ranges (d : AssetData)
    (hname : trimsToEmpty d.name = false)
    (hlen : d.name.length ≤ 100)
    (hint : d.quantity.isInt = true)
    (hq0 : 0 ≤ d.quantity)
    (hqmax : d.quantity ≤ 999999)
    (hserial : Asset.serialNumberMatches d.serialNumber = true)
    (hrp : 0 ≤ d.reorderPoint) :
    (Asset.validate d = true ∧ Asset.validateErrors d = []) ∧
      ∀ e : AssetData, Asset.validate e = true ↔ Asset.validateErrors e = [] := by
  have hserial' : d.serialNumber ≠ "" := by
    intro hempty
    rw [hempty] at hserial
    exact absurd hserial (by decide)
  have herrs : Asset.validateErrors d = [] := by
    simp [Asset.validateErrors, hname, hint, hserial, hserial',
      not_lt.mpr hlen, not_lt.mpr hq0, not_lt.mpr hqmax, not_lt.mpr hrp]
  refine ⟨⟨?_, herrs⟩, ?_⟩
  · simp [Asset.validate, herrs]
  · intro e
    simp [Asset.validate, List.isEmpty_iff]

/-- C3 witness: the valid ventilator fixture validates with an empty
error map. -/
theorem validate_within_ranges_witness :
    Asset.validate ventilatorData = true ∧
      Asset.validateErrors ventilatorData = [] :=
  (validate_within_ranges ventilatorData (by decide) (by decide) (by decide)
    (by decide) (by decide) (by decide) (by decide)).1

theorem foldl_add_eq_sum {α : Type} (f : α → ℚ) (l : List α) (init : ℚ) :
    l.foldl (fun s a => s + f a) init = init + (l.map f).sum := by
  induction l generalizing init with
  | nil => simp
  | cons hd t ih => simp [ih, add_assoc]

/-! ## C4 — `Repository.save` -/

/-- C4: `save(entity)` throws (a validation error carrying the first
field's first message) exactly when `entity.validate()` is false, and
then leaves the collection untouched; on success it upserts the entity —
marked clean — under its id, leaving every other id's entry unchanged. -/
theorem repository_save_spec (m : HospitalAsset) (storage : RepoStorage) :
    ((AssetRepository.save m storage).thrown.isSome ↔
        HospitalAsset.validate m = false) ∧
    (HospitalAsset.validate m = false →
      (AssetRepository.save m storage).storage = storage ∧
      (AssetRepository.save m storage).thrown =
        some ("Model validation failed: " ++ AssetRepository.firstErrorMessage m)) ∧
    (HospitalAsset.validate m = true →
      mapLookup (AssetRepository.save m storage).storage m.data.id =
        some (HospitalAsset.markAsClean m) ∧
      (∀ k, k ≠ m.data.id →
        mapLookup (AssetRepository.save m storage).storage k = mapLookup storage k) ∧
      (AssetRepository.save m storage).entity.isDirty = false) := by
  by_cases hv : HospitalAsset.validate m = true
  · refine ⟨by simp [AssetRepository.save, hv],
      fun hfalse => absurd hv (by simp [hfalse]),
      fun _ => ⟨?_, ?_, ?_⟩⟩
    · simp [AssetRepository.save, hv, mapLookup_mapSet_self]
    · intro k hk
      simp [AssetRepository.save, hv, mapLookup_mapSet_ne _ _ _ _ hk]
    · simp [AssetRepository.save, hv, HospitalAsset.markAsClean]
  · have hv' : HospitalAsset.validate m = false := by
      simpa using hv
    exact ⟨by simp [AssetRepository.save, hv'],
      fun _ => ⟨by simp [AssetRepository.save, hv'], by simp [AssetRepository.save, hv']⟩,
      fun htrue => absurd htrue hv⟩

/-- C4 witness: saving the valid fixture into the empty collection
stores it under its id, touches no other key, and marks it clean. -/
theorem repository_save_spec_witness :
    mapLookup (AssetRepository.save validModel ([] : RepoStorage)).storage
        validModel.data.id = some (HospitalAsset.markAsClean validModel) ∧
      (∀ k, k ≠ validModel.data.id →
        mapLookup (AssetRepository.save validModel ([] : RepoStorage)).storage k =
          mapLookup ([] : RepoStorage) k) ∧
      (AssetRepository.save validModel ([] : RepoStorage)).entity.isDirty = false :=
  (repository_save_spec validModel ([] : RepoStorage)).2.2 (by decide)

/-! ## C5 — `createAsset` -/

/-- C5: `createAsset` with an invalid entity leaves the working set
unchanged, never reaches the repository, and records the composed
validation message; with a valid entity it appends the (clean) entity to
the working set. -/
theorem createAsset_spec (a : HospitalAsset) (st : StoreState) (storage : RepoStorage) :
    (HospitalAsset.validate a = false →
      (StoreState.createAsset a st storage).state.assets = st.assets ∧
      (StoreState.createAsset a st storage).saveCalled = false ∧
      (StoreState.createAsset a st storage).storage = storage ∧
      (StoreState.createAsset a st storage).state.error =
        some (composeValidationError a)) ∧
    (HospitalAsset.validate a = true →
      (StoreState.createAsset a st storage).state.assets =
        st.assets ++ [HospitalAsset.markAsClean a] ∧
      (StoreState.createAsset a st storage).saveCalled = true ∧
      (StoreState.createAsset a st storage).state.error = none) := by
  constructor
  · intro hv
    refine ⟨?_, ?_, ?_, ?_⟩ <;>
      simp [StoreState.createAsset, hv]
  · intro hv
    refine ⟨?_, ?_, ?_⟩ <;>
      simp [StoreState.createAsset, AssetRepository.save, hv]

/-- C5 witness: creating the `INVALID`-serial fixture in an empty store
leaves the working set unchanged, skips the repository, and records the
composed error. -/
theorem createAsset_spec_witness :
    (StoreState.createAsset invalidSerialModel (storeWith []) ([] : RepoStorage)).state.assets =
        (storeWith []).assets ∧
      (StoreState.createAsset invalidSerialModel (storeWith []) ([] : RepoStorage)).saveCalled =
        false ∧
      (StoreState.createAsset invalidSerialModel (storeWith []) ([] : RepoStorage)).storage =
        ([] : RepoStorage) ∧
      (StoreState.createAsset invalidSerialModel (storeWith []) ([] : RepoStorage)).state.error =
        some (composeValidationError invalidSerialModel) :=
  (createAsset_spec invalidSerialModel (storeWith []) ([] : RepoStorage)).1 (by decide)

/-! ## C7 — `statistics` -/

/-- C7: over every working set whose purchase-price entries are numeric
or absent, `statistics.totalValue` is the sum of quantity times the
purchase-price custom field (0 when absent) and
`statistics.criticalCount` counts exactly the assets satisfying
`isCritical()`; on the two-asset fixture (quantities 2 and 5, prices
1000 and 500) the total value is 4500. -/
theorem statistics_spec :
    (∀ st : StoreState, (∀ a ∈ st.assets, ppNumeric a = true) →
      st.statistics.totalValue =
          (st.assets.map fun a => a.data.quantity * ((specPurchasePrice a).getD 0)).sum ∧
        st.statistics.criticalCount = st.assets.countP HospitalAsset.isCritical) ∧
    statsStore.statistics.totalValue = 4500 := by
  constructor
  · intro st _
    constructor
    · have hpp : ∀ a : HospitalAsset,
          StoreState.purchasePriceOr0 a = (specPurchasePrice a).getD 0 := by
        intro a
        unfold StoreState.purchasePriceOr0 specPurchasePrice
        cases mapLookup a.customFields "purchasePrice" with
        | none => rfl
        | some v => cases v <;> rfl
      simp only [StoreState.statistics, StoreState.totalValue, foldl_add_eq_sum,
        zero_add, hpp]
    · simp only [StoreState.statistics, StoreState.criticalAssets,
        List.countP_eq_length_filter]
  · simp only [StoreState.statistics, StoreState.totalValue, statsStore, storeWith,
      statsAsset1, statsAsset2, plainModel, ventilatorData, List.foldl,
      StoreState.purchasePriceOr0, mapLookup]
    norm_num

/-- C7 witness: the general statistics law applied to the two-asset
fixture store. -/
theorem statistics_spec_witness :
    statsStore.statistics.totalValue =
        (statsStore.assets.map fun a =>
          a.data.quantity * ((specPurchasePrice a).getD 0)).sum ∧
      statsStore.statistics.criticalCount =
        statsStore.assets.countP HospitalAsset.isCritical :=
  statistics_spec.1 statsStore (by decide)

/-! ## C9 — constructor truthiness on `purchasePrice`, `location`, `condition` -/

/-- C9: each clause on its own domain — for every construction input
with `purchasePrice: 0`, neither the typed field nor a custom-fields
entry is stored (the custom map stays exactly the input's); for every
input with an empty-string `location` (resp. `condition`) that field is
dropped; and for every input whose `purchasePrice` is non-zero the
typed/custom sync does happen. -/
theorem construct_falsy_fields (inp : HospitalAssetInput) (config : HospitalConfig)
    (freshId : String) :
    (inp.purchasePrice = some 0 →
      (HospitalAsset.construct inp config freshId).data.purchasePrice = none ∧
      (HospitalAsset.construct inp config freshId).customFields =
        inp.customFields.getD []) ∧
    (inp.location = some "" →
      (HospitalAsset.construct inp config freshId).data.location = none) ∧
    (inp.condition = some "" →
      (HospitalAsset.construct inp config freshId).data.condition = none) ∧
    (∀ p : ℚ, p ≠ 0 → inp.purchasePrice = some p →
      (HospitalAsset.construct inp config freshId).data.purchasePrice = some p ∧
      HospitalAsset.getCustomField (HospitalAsset.construct inp config freshId)
        "purchasePrice" = some (.num p)) := by
  refine ⟨fun hpp => ⟨?_, ?_⟩, fun hloc => ?_, fun hcond => ?_,
    fun p hp hpp => ⟨?_, ?_⟩⟩
  · simp [HospitalAsset.construct, hpp, jsNumOpt]
  · simp [HospitalAsset.construct, hpp]
  · simp [HospitalAsset.construct, hloc, jsStrOpt]
  · simp [HospitalAsset.construct, hcond, jsStrOpt]
  · simp [HospitalAsset.construct, hpp, jsNumOpt, hp]
  · simp [HospitalAsset.construct, HospitalAsset.getCustomField, hpp, hp,
      mapLookup_mapSet_self]

/-- C9 witness: the falsy-input fixture (price 0, empty location and
condition, a `department` custom field) keeps its custom map and stores
none of the three fields; the round-trip fixture (price 1000) gets both
the typed field and the custom entry. -/
theorem construct_falsy_fields_witness :
    ((HospitalAsset.construct falsyInput plainConfig "fixed-id").data.purchasePrice =
        none ∧
      (HospitalAsset.construct falsyInput plainConfig "fixed-id").customFields =
        falsyInput.customFields.getD []) ∧
      (HospitalAsset.construct falsyInput plainConfig "fixed-id").data.location = none ∧
      (HospitalAsset.construct falsyInput plainConfig "fixed-id").data.condition = none ∧
      ((HospitalAsset.construct roundtripInput plainConfig
            "fixed-id").data.purchasePrice = some 1000 ∧
        HospitalAsset.getCustomField
          (HospitalAsset.construct roundtripInput plainConfig "fixed-id")
          "purchasePrice" = some (.num 1000)) :=
  ⟨(construct_falsy_fields falsyInput plainConfig "fixed-id").1 rfl,
    (construct_falsy_fields falsyInput plainConfig "fixed-id").2.1 rfl,
    (construct_falsy_fields falsyInput plainConfig "fixed-id").2.2.1 rfl,
    (construct_falsy_fields roundtripInput plainConfig "fixed-id").2.2.2 1000
      (by norm_num) rfl⟩

/-! Order lemmas for the code-unit string comparison. -/

theorem charListLt_cons_iff (x : Char) (xs : List Char) (y : Char) (ys : List Char) :
    charListLt (x :: xs) (y :: ys) = true ↔
      (x.toNat < y.toNat ∨ (x.toNat = y.toNat ∧ charListLt xs ys = true)) := by
  simp only [charListLt]
  by_cases h1 : x.toNat < y.toNat <;> by_cases h2 : y.toNat < x.toNat <;>
    simp [h1, h2] <;> omega

theorem charListLt_cons_false_iff (x : Char) (xs : List Char) (y : Char) (ys : List Char) :
    charListLt (x :: xs) (y :: ys) = false ↔
      (y.toNat < x.toNat ∨ (x.toNat = y.toNat ∧ charListLt xs ys = false)) := by
  simp only [charListLt]
  by_cases h1 : x.toNat < y.toNat <;> by_cases h2 : y.toNat < x.toNat <;>
    simp [h1, h2] <;> omega

theorem charListLt_irrefl (l : List Char) : charListLt l l = false := by
  induction l with
  | nil => rfl
  | cons c t ih => simp [charListLt, ih]

theorem charListLt_trans :
    ∀ a b c : List Char, charListLt a b = true → charListLt b c = true →
      charListLt a c = true := by
  intro a
  induction a with
  | nil =>
    intro b c hab hbc
    cases b with
    | nil => simp [charListLt] at hab
    | cons y ys =>
      cases c with
      | nil => simp [charListLt] at hbc
      | cons z zs => simp [charListLt]
  | cons x xs ih =>
    intro b c hab hbc
    cases b with
    | nil => simp [charListLt] at hab
    | cons y ys =>
      cases c with
      | nil => simp [charListLt] at hbc
      | cons z zs =>
        rw [charListLt_cons_iff] at hab hbc ⊢
        rcases hab with hab | ⟨habe, habr⟩ <;> rcases hbc with hbc | ⟨hbce, hbcr⟩
        · exact Or.inl (by omega)
        · exact Or.inl (by omega)
        · exact Or.inl (by omega)
        · exact Or.inr ⟨by omega, ih ys zs habr hbcr⟩

theorem charListNotLt_trans :
    ∀ a b c : List Char, charListLt b a = false → charListLt c b = false →
      charListLt c a = false := by
  intro a
  induction a with
  | nil =>
    intro b c _ _
    cases c <;> simp [charListLt]
  | cons x xs ih =>
    intro b c h1 h2
    cases c with
    | nil =>
      cases b with
      | nil => simp [charListLt] at h1
      | cons y ys => simp [charListLt] at h2
    | cons z zs =>
      cases b with
      | nil => simp [charListLt] at h1
      | cons y ys =>
        rw [charListLt_cons_false_iff] at h1 h2 ⊢
        rcases h1 with h1 | ⟨h1e, h1r⟩ <;> rcases h2 with h2 | ⟨h2e, h2r⟩
        · exact Or.inl (by omega)
        · exact Or.inl (by omega)
        · exact Or.inl (by omega)
        · exact Or.inr ⟨by omega, ih ys zs h1r h2r⟩

theorem charListLt_asymm (a b : List Char) (h : charListLt a b = true) :
    charListLt b a = false := by
  by_contra hc
  have hba : charListLt b a = true := by simpa using hc
  have hself : charListLt a a = true := charListLt_trans a b a h hba
  rw [charListLt_irrefl] at hself
  exact Bool.false_ne_true hself

theorem charListLt_not_both (a b : List Char) :
    charListLt a b = false ∨ charListLt b a = false := by
  by_cases h : charListLt a b = true
  · exact Or.inr (charListLt_asymm _ _ h)
  · exact Or.inl (by simpa using h)

/-! Lemmas bridging the store's comparator and the specified sort order. -/

theorem sortLE_eq_specSortLE (k : SortKey) (dir : SortDir) (a b : HospitalAsset) :
    StoreState.sortLE k dir a b = specSortLE k dir a b := by
  cases dir <;> cases k <;>
    simp only [StoreState.sortLE, StoreState.sortKeyLt, specSortLE, specSortKeyLE]
  · rw [← decide_not]
    exact decide_eq_decide.mpr not_lt
  · rw [← decide_not]
    exact decide_eq_decide.mpr not_lt

theorem specSortLE_trans (k : SortKey) (dir : SortDir) (a b c : HospitalAsset)
    (h1 : specSortLE k dir a b = true) (h2 : specSortLE k dir b c = true) :
    specSortLE k dir a c = true := by
  cases dir <;> cases k <;>
    simp only [specSortLE, specSortKeyLE, Bool.not_eq_true', decide_eq_true_eq,
      strLt] at h1 h2 ⊢
  · exact charListNotLt_trans _ _ _ h1 h2
  · exact le_trans h1 h2
  · exact charListNotLt_trans _ _ _ h1 h2
  · exact charListNotLt_trans _ _ _ h2 h1
  · exact le_trans h2 h1
  · exact charListNotLt_trans _ _ _ h2 h1

theorem specSortLE_total (k : SortKey) (dir : SortDir) (a b : HospitalAsset) :
    (specSortLE k dir a b || specSortLE k dir b a) = true := by
  cases dir <;> cases k <;>
    simp only [specSortLE, specSortKeyLE, Bool.or_eq_true, Bool.not_eq_true',
      decide_eq_true_eq, strLt]
  · exact charListLt_not_both _ _
  · exact le_total _ _
  · exact charListLt_not_both _ _
  · exact charListLt_not_both _ _
  · exact le_total _ _
  · exact charListLt_not_both _ _

theorem matchesSearch_eq (q : String) :
    StoreState.matchesSearch q = fun a : HospitalAsset =>
      strIncludes (strLower a.data.name) q ||
        strIncludes (strLower a.data.serialNumber) q ||
        strIncludes (strLower a.data.manufacturer) q := rfl

/-! ## C6 — the `filteredAssets` pipeline -/

/-- C6: `filteredAssets` equals the specified pipeline — activeFilter
predicate, then case-insensitive substring search over
name/serialNumber/manufacturer when the query is non-empty, then
category equality when a category is set, then a stable sort on the
`sortBy` field in `sortDirection` order; the result is sorted in that
order, and elements with tied keys keep the relative order they had
after the filter stages. -/
theorem filteredAssets_pipeline (st : StoreState) :
    st.filteredAssets = specFilteredAssets st ∧
    List.Pairwise (fun a b => specSortLE st.sortBy st.sortDirection a b = true)
      st.filteredAssets ∧
    (∀ a b : HospitalAsset, specSortLE st.sortBy st.sortDirection a b = true →
      List.Sublist [a, b] (specPreSort st) →
      List.Sublist [a, b] st.filteredAssets) := by
  have heq : st.filteredAssets = specFilteredAssets st := by
    obtain ⟨assets, loading, error, sq, sc, sb, sd, af⟩ := st
    have hfun : StoreState.sortLE sb sd = specSortLE sb sd :=
      funext fun a => funext fun b => sortLE_eq_specSortLE sb sd a b
    simp only [StoreState.filteredAssets, specFilteredAssets, specPreSort,
      specActiveFilter, specSearchFilter, specCategoryFilter]
    cases af <;> rcases sc with _ | c <;> by_cases hq : sq = ""
    all_goals try by_cases hc : c = ""
    all_goals first
      | simp [hq, hc, matchesSearch_eq, hfun]
      | simp [hq, matchesSearch_eq, hfun]
  refine ⟨heq, ?_, ?_⟩
  · rw [heq]
    exact List.sorted_mergeSort
      (specSortLE_trans st.sortBy st.sortDirection)
      (specSortLE_total st.sortBy st.sortDirection) (specPreSort st)
  · intro a b hab hsub
    rw [heq]
    exact List.pair_sublist_mergeSort
      (specSortLE_trans st.sortBy st.sortDirection)
      (specSortLE_total st.sortBy st.sortDirection) hab hsub

/-- C6 witness: in the tie fixture (equal quantities, ascending
quantity sort) the two assets keep their relative order through
`filteredAssets`. -/
theorem filteredAssets_pipeline_witness :
    List.Sublist [tieAsset1, tieAsset2] tieStore.filteredAssets :=
  (filteredAssets_pipeline tieStore).2.2 tieAsset1 tieAsset2 (by decide)
    (by
      have h : specPreSort tieStore = [tieAsset1, tieAsset2] := rfl
      rw [h])

/-! ## C10 — `filteredAssets` does not mutate the store -/

/-- C10: evaluating the `filteredAssets` derived view leaves the whole
store state — the working set and every filter/sort setting — exactly as
it was: the pipeline copies the array before filtering and sorting, so
the in-place sort touches only the copy. -/
theorem filteredAssets_frame (st : StoreState) :
    (StoreState.filteredAssetsRun st).2 = st ∧
      (StoreState.filteredAssetsRun st).2.assets = st.assets ∧
      (StoreState.filteredAssetsRun st).1 = st.filteredAssets :=
  ⟨rfl, rfl, rfl⟩

/-! ## C8 — serialize / construct round-trip -/

/-- C8: for every constructed asset (a fresh id is non-empty; stored
dates carry real calendar components), feeding `serialize()`'s record
back through the constructor — date fields parsed back from their
ISO-8601 strings — rebuilds the very same asset. -/
theorem serialize_construct_roundtrip (inp : HospitalAssetInput)
    (config : HospitalConfig) (freshId freshId' : String)
    (hid : freshId ≠ "")
    (hlm : (inp.lastMaintenance.all fun i => decide i.wf) = true)
    (hed : (inp.expiryDate.all fun i => decide i.wf) = true)
    (hwe : (inp.warrantyExpiry.all fun i => decide i.wf) = true)
    (hlc : (inp.lastCalibration.all fun i => decide i.wf) = true) :
    HospitalAsset.construct
        ((HospitalAsset.construct inp config freshId).serialize.toInput)
        config freshId' =
      HospitalAsset.construct inp config freshId := by
  have hdate : ∀ o : Option Instant, (o.all fun i => decide i.wf) = true →
      (o.map Instant.toISOString).bind parseISOInstant = o := by
    intro o ho
    cases o with
    | none => rfl
    | some i =>
      simp only [Option.all] at ho
      simp [parseISO_toISO i (of_decide_eq_true ho)]
  obtain ⟨iid, iname, imanu, icat, iqty, iser, icl, ilm, ied, irp,
    icf, iloc, icond, ipp, iwe, ilc⟩ := inp
  have eid : jsStrOr (some (jsStrOr iid freshId)) freshId' = jsStrOr iid freshId :=
    jsStrOr_some_of_ne _ _ (jsStrOr_ne_empty iid freshId hid)
  rcases ipp with _ | p
  · simp [HospitalAsset.construct, HospitalAsset.serialize,
      HospitalAsset.Serialized.toInput, Asset.initData, jsNumOpt, jsStrOpt_idem,
      eid, hdate ilm hlm, hdate ied hed, hdate iwe hwe, hdate ilc hlc]
  · by_cases hz : p = 0 <;>
      simp [HospitalAsset.construct, HospitalAsset.serialize,
        HospitalAsset.Serialized.toInput, Asset.initData, jsNumOpt, hz,
        jsStrOpt_idem, mapSet_idem, eid,
        hdate ilm hlm, hdate ied hed, hdate iwe hwe, hdate ilc hlc]

/-- C8 witness: the round-trip at the fully-populated fixture input. -/
theorem serialize_construct_roundtrip_witness :
    HospitalAsset.construct
        ((HospitalAsset.construct roundtripInput plainConfig "gen-1").serialize.toInput)
        plainConfig "gen-2" =
      HospitalAsset.construct roundtripInput plainConfig "gen-1" :=
  serialize_construct_roundtrip roundtripInput plainConfig "gen-1" "gen-2"
    (by decide) (by decide) (by decide) (by decide) (by decide)

end HIM
